import Mathlib

/-!
Verification of the `apk2abb` utility scripts (an APK-to-AAB converter, a
bundletool fetcher, a certificate manager, and an AAB analyzer) against their
natural-language specification.

The scripts are shallowly embedded: the filesystem is an association list from
paths to file contents, each script is a pure function from an environment
(outcomes of the external tools it invokes) and a filesystem to a result
record carrying its return value, the updated filesystem, the console/log
lines it emits, and the external tool invocations it makes.  Side effects
that external binaries would have on files (for instance `jarsigner` signing
an archive in place, whose bytes this repository never inspects) are not
modelled; external calls are modelled by their command line, timeout, and
environment-chosen exit code / raised exception.
-/

/- ================= Python string primitives ================= -/

/-- Boolean list-prefix test on characters, the primitive under the
substring scan of Python's `str.replace`. -/
def listPrefixOf : List Char → List Char → Bool
  | [], _ => true
  | _ :: _, [] => false
  | p :: ps, c :: cs => p == c && listPrefixOf ps cs

/-- Fuelled scan implementing Python's `str.replace` for a non-empty pattern:
scan left to right, on a match emit the replacement and skip the pattern,
otherwise copy one character.  Each step consumes at least one character, so
fuel equal to the string length computes the full replacement. -/
def pyReplaceAux (pat rep : List Char) : Nat → List Char → List Char
  | _, [] => []
  | 0, cs => cs
  | Nat.succ fuel, c :: rest =>
    if !pat.isEmpty && listPrefixOf pat (c :: rest)
    then rep ++ pyReplaceAux pat rep fuel (List.drop (pat.length - 1) rest)
    else c :: pyReplaceAux pat rep fuel rest

/-- Python's `s.replace(pat, rep)` for a non-empty pattern: every
non-overlapping occurrence of `pat`, found left to right, is replaced by
`rep`. -/
def pyReplace (s pat rep : String) : String :=
  ⟨pyReplaceAux pat.toList rep.toList s.toList.length s.toList⟩

/-- Boolean substring test on character lists (Python's `pat in s`). -/
def containsSubL (pat : List Char) : List Char → Bool
  | [] => listPrefixOf pat []
  | c :: rest => listPrefixOf pat (c :: rest) || containsSubL pat rest

/-- Boolean substring test on strings. -/
def containsSub (pat s : String) : Bool := containsSubL pat.toList s.toList

/-- Splitter behind Python's `str.split(sep)`: accumulate the current field in
reverse, cut at each separator, keep empty fields. -/
def pySplitAux (sep : Char) : List Char → List Char → List (List Char)
  | [], acc => [acc.reverse]
  | c :: rest, acc =>
    if c = sep then acc.reverse :: pySplitAux sep rest [] else pySplitAux sep rest (c :: acc)

/-- Python's `s.split(sep)` for a one-character separator. -/
def pySplit (sep : Char) (s : String) : List String :=
  (pySplitAux sep s.toList []).map String.mk

/-- Index of the last occurrence of a character, Python's `str.rfind` with
`none` standing for the sentinel `-1`. -/
def lastIdxOf (c : Char) : List Char → Option Nat
  | [] => none
  | x :: rest =>
    match lastIdxOf c rest with
    | some i => some (i + 1)
    | none => if x = c then some 0 else none

/- ================= pathlib path operations ================= -/

/-- Final component of a path, `pathlib.PurePath.name` for ordinary file
paths (no trailing slash). -/
def pathNameAux : List Char → List Char → List Char
  | [], acc => acc.reverse
  | c :: rest, acc => if c = '/' then pathNameAux rest [] else pathNameAux rest (c :: acc)

/-- Final component of a path string. -/
def pathName (p : String) : String := ⟨pathNameAux p.toList []⟩

/-- Python `pathlib.PurePath.stem` applied to a file name: drop the last
dot-suffix when the last dot is neither the first nor the last character
(CPython: `i = name.rfind('.'); name[:i] if 0 < i < len(name) - 1 else name`). -/
def pathStemOfName (name : String) : String :=
  match lastIdxOf '.' name.toList with
  | none => name
  | some i =>
    if 0 < i ∧ i < name.toList.length - 1 then ⟨name.toList.take i⟩ else name

/-- Python `Path(p).stem`: the stem of the final path component. -/
def pathStem (p : String) : String := pathStemOfName (pathName p)

/-- Python `Path(p).parent` for ordinary relative file paths: the part before
the last slash, or `"."` when there is no slash. -/
def pathParent (p : String) : String :=
  let r := p.toList.reverse
  if r.any (fun c => c = '/') then ⟨((r.dropWhile (fun c => c ≠ '/')).drop 1).reverse⟩
  else "."

/-- Python `str(Path(dir) / name)` for a relative directory and a plain file
name: `"." / name` collapses to `name`. -/
def pathJoin (dir name : String) : String :=
  if dir = "." then name else dir ++ "/" ++ name

/- ================= Python sorted on strings ================= -/

/-- Code-point lexicographic order on character lists, Python's string
comparison. -/
def listLeb : List Char → List Char → Bool
  | [], _ => true
  | _ :: _, [] => false
  | c :: cs, d :: ds => if c = d then listLeb cs ds else decide (c < d)

/-- Python's `<=` on strings. -/
def strLeb (a b : String) : Bool := listLeb a.toList b.toList

/-- Insert into an ascending list, keeping earlier-inserted equal elements
first (stability of Python's sort). -/
def ordInsert (x : String) : List String → List String
  | [] => [x]
  | y :: ys => if strLeb x y then x :: y :: ys else y :: ordInsert x ys

/-- Python's `sorted` on a list of strings (ascending, stable). -/
def pySorted : List String → List String
  | [] => []
  | x :: xs => ordInsert x (pySorted xs)

theorem length_ordInsert (x : String) (l : List String) :
    (ordInsert x l).length = l.length + 1 := by
  induction l with
  | nil => rfl
  | cons y ys ih => by_cases h : strLeb x y = true <;> simp [ordInsert, h, ih]

theorem length_pySorted (l : List String) : (pySorted l).length = l.length := by
  induction l with
  | nil => rfl
  | cons x xs ih => simp [pySorted, length_ordInsert, ih]

theorem mem_ordInsert (a x : String) (l : List String) :
    a ∈ ordInsert x l ↔ a = x ∨ a ∈ l := by
  induction l with
  | nil => simp [ordInsert]
  | cons y ys ih =>
    by_cases h : strLeb x y = true
    · simp [ordInsert, h]
    · simp [ordInsert, h, ih]
      tauto

theorem mem_pySorted (a : String) (l : List String) : a ∈ pySorted l ↔ a ∈ l := by
  induction l with
  | nil => simp [pySorted]
  | cons x xs ih => simp [pySorted, mem_ordInsert, ih]

/- ================= Filesystem model ================= -/

/-- Content of a file in the model: opaque binary payloads, files written in
text mode, and zip archives represented by their central-directory entry list
(name and stored content, in writing order).  A file built by `zipfile` is a
`zip`; a `bytes` or `text` file opened as a zip raises `BadZipFile`. -/
inductive FileContent where
  | bytes (data : List Nat) : FileContent
  | text (s : String) : FileContent
  | zip (entries : List (String × FileContent)) : FileContent

/-- A filesystem: an association list from path to file content. -/
structure FS where
  files : List (String × FileContent)

/-- First-match lookup in the path association list. -/
def lookupFile : List (String × FileContent) → String → Option FileContent
  | [], _ => none
  | (q, c) :: rest, p => if q = p then some c else lookupFile rest p

/-- Content stored at a path, if any. -/
def FS.lookup (fs : FS) (p : String) : Option FileContent := lookupFile fs.files p

/-- Python `Path.exists()`. -/
def FS.hasFile (fs : FS) (p : String) : Bool := (fs.lookup p).isSome

/-- Overwrite-or-create update of the path association list. -/
def writeFile : List (String × FileContent) → String → FileContent → List (String × FileContent)
  | [], p, c => [(p, c)]
  | (q, d) :: rest, p, c => if q = p then (p, c) :: rest else (q, d) :: writeFile rest p c

/-- Write content at a path, replacing any previous content. -/
def FS.write (fs : FS) (p : String) (c : FileContent) : FS := ⟨writeFile fs.files p c⟩

theorem lookupFile_writeFile_self (l : List (String × FileContent)) (p : String) (c : FileContent) :
    lookupFile (writeFile l p c) p = some c := by
  induction l with
  | nil => simp [writeFile, lookupFile]
  | cons qd rest ih =>
    obtain ⟨q, d⟩ := qd
    by_cases h : q = p <;> simp [writeFile, lookupFile, h, ih]

theorem FS.lookup_write_self (fs : FS) (p : String) (c : FileContent) :
    (fs.write p c).lookup p = some c :=
  lookupFile_writeFile_self fs.files p c

theorem FS.hasFile_write_self (fs : FS) (p : String) (c : FileContent) :
    (fs.write p c).hasFile p = true := by
  simp [FS.hasFile, FS.lookup_write_self]

/- ================= External tool invocations ================= -/

/-- One external tool invocation: its command line and the `timeout=` value
(in seconds) passed to `subprocess.run`, `none` when no timeout is passed
(the call may block forever). -/
structure ToolCall where
  argv : List String
  timeoutSecs : Option Nat
  deriving DecidableEq

/-- The specification's timeout discipline for one invocation: a fixed
timeout between 30 and 120 seconds is in force. -/
def timeoutOk (c : ToolCall) : Bool :=
  match c.timeoutSecs with
  | some t => decide (30 ≤ t) && decide (t ≤ 120)
  | none => false

/- ================= download_bundletool.py ================= -/

/-- Version string pinned in `download_bundletool.py`. -/
def BUNDLETOOL_VERSION : String := "1.15.6"

/-- Fixed release URL the fetcher downloads from. -/
def BUNDLETOOL_URL : String :=
  "https://github.com/google/bundletool/releases/download/" ++ BUNDLETOOL_VERSION ++
    "/bundletool-all-" ++ BUNDLETOOL_VERSION ++ ".jar"

/-- Tools directory, relative to the script directory. -/
def TOOLS_DIR : String := "tools"

/-- Target path of the bundletool jar. -/
def BUNDLETOOL_JAR : String := pathJoin TOOLS_DIR "bundletool.jar"

/-- Environment of one fetcher run: whether `urllib.request.urlretrieve`
succeeds, the jar bytes it would store, and the exception text on failure. -/
structure DlEnv where
  downloadOk : Bool
  jarContent : FileContent
  excStr : String

/-- Result of `download_bundletool`: return value, filesystem, number of
network requests issued, log lines. -/
structure DlResult where
  ok : Bool
  fs : FS
  requests : Nat
  logs : List String

/-- Model of `download_bundletool()`: if the jar is already at the target
path, log and succeed without any network request; otherwise issue one
`urlretrieve` request, writing the jar on success.  Progress-percentage
console output (float arithmetic on byte counts) is elided. -/
def download_bundletool (env : DlEnv) (fs : FS) : DlResult :=
  if fs.hasFile BUNDLETOOL_JAR then
    ⟨true, fs, 0, ["✓ Bundletool already exists at " ++ BUNDLETOOL_JAR]⟩
  else if env.downloadOk then
    ⟨true, fs.write BUNDLETOOL_JAR env.jarContent, 1,
      ["📥 Downloading bundletool " ++ BUNDLETOOL_VERSION ++ "...",
       "✓ Downloaded bundletool to " ++ BUNDLETOOL_JAR]⟩
  else
    ⟨false, fs, 1,
      ["📥 Downloading bundletool " ++ BUNDLETOOL_VERSION ++ "...",
       "✗ Failed to download bundletool: " ++ env.excStr]⟩

/- ================= cert_manager.py ================= -/

/-- Certificates directory of `cert_manager.py`. -/
def CERTS_DIR : String := "certs"

/-- Environment of the `keytool` invocations of `cert_manager.py`: exit
codes, output streams, whether `subprocess.run` raises, exception texts, and
the keystore file `keytool -genkey` leaves behind on success. -/
structure KtEnv where
  genReturncode : Int
  genStderr : String
  genRaises : Bool
  genExc : String
  genKeystoreContent : FileContent
  listReturncode : Int
  listStdout : String
  listStderr : String
  listRaises : Bool
  listExc : String
  valReturncode : Int
  valStderr : String
  valRaises : Bool
  valExc : String

/-- Result of `create_keystore`: return value, filesystem, log lines, and the
external invocations performed. -/
structure CkResult where
  ok : Bool
  fs : FS
  logs : List String
  calls : List ToolCall

/-- Command line of `keytool -genkey` as built in `create_keystore`. -/
def keytoolGenArgv (keystore_path0 keystore_pass0 alias0 alias_pass0 : String)
    (validity_days : Nat) : List String :=
  ["keytool", "-genkey", "-v", "-keystore", keystore_path0, "-keyalg", "RSA",
   "-keysize", "2048", "-validity", toString validity_days, "-alias", alias0,
   "-storepass", keystore_pass0, "-keypass", alias_pass0, "-dname",
   "CN=IoT Marketplace App, O=Your Company, L=Your City, ST=Your State, C=US"]

/-- Model of `create_keystore(keystore_path, keystore_pass, alias, alias_pass,
validity_days)` (the source defaults `validity_days` to 25550): no-op success
if the keystore file already exists, otherwise one `keytool -genkey` run with
`timeout=30`; on exit code 0 the keystore file appears (written by `keytool`)
and the call succeeds, otherwise it fails. -/
def create_keystore (env : KtEnv) (fs : FS)
    (keystore_path0 keystore_pass0 alias0 alias_pass0 : String) (validity_days : Nat) :
    CkResult :=
  if fs.hasFile keystore_path0 then
    ⟨true, fs, ["✓ Keystore already exists at " ++ keystore_path0], []⟩
  else
    let call : ToolCall :=
      ⟨keytoolGenArgv keystore_path0 keystore_pass0 alias0 alias_pass0 validity_days, some 30⟩
    if env.genRaises then
      ⟨false, fs,
        ["🔐 Creating keystore: " ++ keystore_path0,
         "✗ Error creating keystore: " ++ env.genExc], [call]⟩
    else if env.genReturncode = 0 then
      ⟨true, fs.write keystore_path0 env.genKeystoreContent,
        ["🔐 Creating keystore: " ++ keystore_path0, "✓ Keystore created successfully",
         "  Location: " ++ keystore_path0, "  Alias: " ++ alias0], [call]⟩
    else
      ⟨false, fs,
        ["🔐 Creating keystore: " ++ keystore_path0,
         "✗ Keystore creation failed: " ++ env.genStderr], [call]⟩

/-- Result of an operation that only reports: return value, output lines, and
the external invocations performed. -/
structure RunReport where
  ok : Bool
  logs : List String
  calls : List ToolCall

/-- Model of `list_keystore_info(keystore_path, keystore_pass)`: one
`keytool -list -v` run through `subprocess.run` with no `timeout=` argument. -/
def list_keystore_info (env : KtEnv) (keystore_path0 keystore_pass0 : String) : RunReport :=
  let call : ToolCall :=
    ⟨["keytool", "-list", "-v", "-keystore", keystore_path0, "-storepass", keystore_pass0],
     none⟩
  if env.listRaises then
    ⟨false, ["✗ Error reading keystore: " ++ env.listExc], [call]⟩
  else if env.listReturncode = 0 then
    ⟨true, ["🔍 Keystore Information:", env.listStdout], [call]⟩
  else
    ⟨false, ["✗ Failed to read keystore: " ++ env.listStderr], [call]⟩

/-- Model of `validate_keystore(keystore_path, keystore_pass, alias)`: a
missing keystore file fails before any invocation; otherwise one
`keytool -list -alias` run through `subprocess.run` with no `timeout=`
argument. -/
def validate_keystore (env : KtEnv) (fs : FS)
    (keystore_path0 keystore_pass0 alias0 : String) : RunReport :=
  if fs.hasFile keystore_path0 = false then
    ⟨false, ["✗ Keystore not found: " ++ keystore_path0], []⟩
  else
    let call : ToolCall :=
      ⟨["keytool", "-list", "-keystore", keystore_path0, "-storepass", keystore_pass0,
        "-alias", alias0], none⟩
    if env.valRaises then
      ⟨false, ["✗ Error validating keystore: " ++ env.valExc], [call]⟩
    else if env.valReturncode = 0 then
      ⟨true, ["✓ Keystore validated successfully"], [call]⟩
    else
      ⟨false, ["✗ Keystore validation failed: " ++ env.valStderr], [call]⟩

/- ================= apk_to_aab.py ================= -/

/-- Separator line `"=" * 60` used by the converter's banner output. -/
def sep60 : String := String.mk (List.replicate 60 (Char.ofNat 61))

/-- Bundletool jar path of the converter (`self.tools_dir / "bundletool.jar"`). -/
def bundletool_jar : String := pathJoin "tools" "bundletool.jar"

/-- Keystore path of the converter (`self.certs_dir / "iot_marketplace_app.keystore"`). -/
def keystore_path : String := pathJoin "certs" "iot_marketplace_app.keystore"

/-- Output directory of the converter. -/
def output_dir : String := "output"

/-- Keystore password constant of the converter. -/
def keystore_pass : String := "iot_app_12345"

/-- Key alias constant of the converter. -/
def key_alias : String := "iot_marketplace"

/-- Key password constant of the converter. -/
def key_pass : String := "iot_app_12345"

/-- Environment of one converter run: result of the `java -version` check,
and exit code / stderr / exception behaviour of the `jarsigner` and
`java -jar bundletool.jar dump manifest` invocations. -/
structure Env where
  javaOk : Bool
  jarsignerReturncode : Int
  jarsignerStderr : String
  jarsignerRaises : Bool
  jarsignerExc : String
  btReturncode : Int
  btStdout : String
  btStderr : String
  btRaises : Bool
  btExc : String

/-- The `os.system("java -version > /dev/null 2>&1")` invocation: a shell
command, no timeout. -/
def javaVersionCall : ToolCall := ⟨["java -version > /dev/null 2>&1"], none⟩

/-- Model of `APKtoAABConverter.check_requirements`: test Java, then the
bundletool jar, then the keystore file, in that order; the first failing
check returns `False` after logging its specific reason. -/
def check_requirements (env : Env) (fs : FS) : RunReport :=
  if env.javaOk = false then
    ⟨false, ["🔍 Checking requirements...", "✗ Java is NOT installed"], [javaVersionCall]⟩
  else if fs.hasFile bundletool_jar = false then
    ⟨false, ["🔍 Checking requirements...", "✓ Java is installed",
             "✗ Bundletool not found at " ++ bundletool_jar], [javaVersionCall]⟩
  else if fs.hasFile keystore_path = false then
    ⟨false, ["🔍 Checking requirements...", "✓ Java is installed", "✓ Bundletool found",
             "✗ Keystore not found at " ++ keystore_path], [javaVersionCall]⟩
  else
    ⟨true, ["🔍 Checking requirements...", "✓ Java is installed", "✓ Bundletool found",
            "✓ Keystore found"], [javaVersionCall]⟩

/-- The placeholder bundle configuration, `str()` of the Python dict
`\x7b"version": 1, "modules": [...]\x7d` exactly as `convert_apk_to_aab`
writes it to `BundleConfig.pb` (plain text, not protobuf). -/
def bundleConfigStr : String :=
  "\x7b\x27version\x27: 1, \x27modules\x27: [\x7b\x27name\x27: \x27base\x27, \x27enabled\x27: True, \x27type\x27: \x27ASSET_PACK\x27\x7d]\x7d"

/-- Result of `convert_apk_to_aab`: return value, filesystem, log lines. -/
structure ConvResult where
  ok : Bool
  fs : FS
  logs : List String

/-- Model of `APKtoAABConverter.convert_apk_to_aab`: fail if the input APK is
missing; otherwise stage the APK as `base/universal.apk` together with the
placeholder `BundleConfig.pb` in a temporary directory (scoped and removed,
so elided here) and write the output archive with exactly those two entries,
in that order.  The logged size figure (float formatting) is elided; the
in-model zip construction cannot raise, so the `except` branch and the
post-write existence check take their success paths. -/
def convert_apk_to_aab (fs : FS) (apk_path output_aab_path0 : String) : ConvResult :=
  match fs.lookup apk_path with
  | none => ⟨false, fs, ["✗ APK file not found: " ++ apk_path]⟩
  | some apkContent =>
    ⟨true,
     fs.write output_aab_path0
       (FileContent.zip [("base/universal.apk", apkContent),
                         ("BundleConfig.pb", FileContent.text bundleConfigStr)]),
     ["📦 Converting APK to AAB...", "  Input: " ++ apk_path,
      "  Output: " ++ output_aab_path0, "  [1/3] Preparing APK module...",
      "  ✓ Module prepared", "  [2/3] Building AAB...", "  ✓ AAB structure created",
      "  ✓ AAB created successfully"]⟩

/-- Signed-archive name from `sign_aab` line 150:
`aab_path.name.replace(".aab", "-signed.aab")`. -/
def signed_aab_name (name : String) : String := pyReplace name ".aab" "-signed.aab"

/-- Result of `sign_aab`: the returned signed path (`none` models the
`False` return), log lines, and the external invocations performed. -/
structure SignResult where
  ret : Option String
  logs : List String
  calls : List ToolCall

/-- Model of `APKtoAABConverter.sign_aab`: compute the signed-archive path,
run `jarsigner` with `timeout=120`, and return the signed path string on exit
code 0, `False` on a non-zero exit or a raised exception.  `jarsigner` signs
the input archive in place; its effect on the file bytes is outside the
scripts and not modelled. -/
def sign_aab (env : Env) (aab_path : String) : SignResult :=
  let signed_aab_path := pathJoin (pathParent aab_path) (signed_aab_name (pathName aab_path))
  let call : ToolCall :=
    ⟨["jarsigner", "-verbose", "-sigalg", "SHA256withRSA", "-digestalg", "SHA-256",
      "-keystore", keystore_path, "-storepass", keystore_pass, "-keypass", key_pass,
      aab_path, key_alias], some 120⟩
  let intro := ["🔐 Signing AAB...", "  Input: " ++ aab_path, "  Output: " ++ signed_aab_path]
  if env.jarsignerRaises then
    ⟨none, intro ++ ["✗ Signing failed: " ++ env.jarsignerExc], [call]⟩
  else if env.jarsignerReturncode = 0 then
    ⟨some signed_aab_path, intro ++ ["  ✓ AAB signed successfully"], [call]⟩
  else
    ⟨none, intro ++ ["✗ Signing failed: " ++ env.jarsignerStderr], [call]⟩

/-- Model of `APKtoAABConverter.get_bundle_info`: fail if the archive is
missing; otherwise run `java -jar bundletool.jar dump manifest` with
`timeout=30`, returning `True` whether or not the dump itself succeeded, and
`False` only when the invocation raises. -/
def get_bundle_info (env : Env) (fs : FS) (aab_path : String) : RunReport :=
  match fs.lookup aab_path with
  | none => ⟨false, ["✗ AAB file not found: " ++ aab_path], []⟩
  | some _ =>
    let call : ToolCall :=
      ⟨["java", "-jar", bundletool_jar, "dump", "manifest", "--bundle", aab_path], some 30⟩
    if env.btRaises then
      ⟨false, ["📋 AAB Information:", "✗ Failed to get info: " ++ env.btExc], [call]⟩
    else if env.btReturncode = 0 then
      ⟨true, ["📋 AAB Information:", "  " ++ env.btStdout], [call]⟩
    else
      ⟨true, ["📋 AAB Information:", "  Could not read manifest: " ++ env.btStderr], [call]⟩

/-- Output archive file name of `process_apk` line 226:
`apk_path.stem.replace(" ", "_") + ".aab"`. -/
def output_aab_name (apk_path : String) : String :=
  pyReplace (pathStem apk_path) " " "_" ++ ".aab"

/-- Output archive path of `process_apk`: `self.output_dir / name`. -/
def output_aab_path (apk_path : String) : String :=
  pathJoin output_dir (output_aab_name apk_path)

/-- Result of `process_apk`: overall return value, filesystem, log lines. -/
structure ProcResult where
  ok : Bool
  fs : FS
  logs : List String

/-- Model of `APKtoAABConverter.process_apk`: requirement check (failure
aborts), bundle construction at the derived output path (failure aborts),
optional signing whose failure only logs a warning, then the manifest dump,
and overall success. -/
def process_apk (env : Env) (fs : FS) (apk_path : String) (sign : Bool) : ProcResult :=
  let header := [sep60, "APK to AAB Conversion", sep60]
  let req := check_requirements env fs
  if req.ok = false then ⟨false, fs, header ++ req.logs⟩
  else
    let conv := convert_apk_to_aab fs apk_path (output_aab_path apk_path)
    if conv.ok = false then ⟨false, conv.fs, header ++ req.logs ++ conv.logs⟩
    else
      let signLogs :=
        if sign then
          let sres := sign_aab env (output_aab_path apk_path)
          if sres.ret.isNone then sres.logs ++ ["⚠ AAB created but signing failed"]
          else sres.logs
        else []
      let info := get_bundle_info env conv.fs (output_aab_path apk_path)
      ⟨true, conv.fs,
       header ++ req.logs ++ conv.logs ++ signLogs ++ info.logs ++
         [sep60, "✓ Conversion completed!", "  Output: " ++ output_aab_path apk_path, sep60]⟩

/-- Model of `apk_to_aab.py`'s `main()`, with `args` standing for
`sys.argv[1:]`: no argument prints usage and exits 1; otherwise the first
argument is the APK, signing is on unless `--no-sign` appears, and the exit
status is 0 exactly when `process_apk` returns `True`. -/
def apk_to_aab_main (env : Env) (fs : FS) (args : List String) : Nat × List String :=
  match args with
  | [] => (1, ["Usage: python apk_to_aab.py <path_to_apk> [--no-sign]",
               "\nExample: python apk_to_aab.py ../iot-marketplace-app.apk"])
  | apk_file :: _ =>
    let sign := !(args.contains "--no-sign")
    let r := process_apk env fs apk_file sign
    (if r.ok then 0 else 1, r.logs)

/- ================= analyze_aab.py ================= -/

/-- Per-module block printed by the analyzer: a module header, then up to 5
example entries (sorted), then, when more than 5 entries exist, one
truncation line naming how many were omitted. -/
def moduleLines (module : String) (files : List String) : List String :=
  ("  ├─ " ++ module ++ "/") ::
    ((pySorted files).take 5).map (fun file => "  │  ├─ " ++ file) ++
      (if files.length > 5 then
        ["  │  └─ ... and " ++ toString (files.length - 5) ++ " more"]
       else [])

/-- Append a file under its module key, creating the key at the end on first
sight (Python dict insertion order). -/
def addToModule : List (String × List String) → String → String → List (String × List String)
  | [], m, f => [(m, [f])]
  | (k, v) :: rest, m, f =>
    if k = m then (k, v ++ [f]) :: rest else (k, v) :: addToModule rest m f

/-- Module key of an archive entry: `file.split('/')[0]`, the whole name when
there is no slash. -/
def moduleOf (file : String) : String := (pySplit '/' file).headD ""

/-- Grouping loop of the analyzer: for each entry name, its module is the
first `'/'`-separated segment (`parts[0]`, guarded by `len(parts) > 0`). -/
def groupByModuleAux (modules : List (String × List String)) :
    List String → List (String × List String)
  | [] => modules
  | file :: rest =>
    let parts := pySplit '/' file
    groupByModuleAux
      (if parts.length > 0 then addToModule modules (parts.headD "") file else modules) rest

/-- Entry names grouped by module, in first-seen module order. -/
def groupByModule (files : List String) : List (String × List String) :=
  groupByModuleAux [] files

/-- First-match lookup of a module's collected entries (`modules[module]`). -/
def lookupModule : List (String × List String) → String → List String
  | [], _ => []
  | (k, v) :: rest, m => if k = m then v else lookupModule rest m

/-- Result of `analyze_aab`: return value and printed lines. -/
structure AnalyzeResult where
  ok : Bool
  output : List String

/-- Model of `analyze_aab(aab_path)`: a missing file is reported and the
function returns before anything else; otherwise the banner and the
stat-derived detail lines (size / mtime / permission formatting depends on
the filesystem metadata and float rendering, abstracted as the `statLines`
parameter) are printed, and only then is the file opened as a zip.  A
non-zip file raises `BadZipFile`, reported as not a valid ZIP archive; a zip
is reported entry count first, then per-module blocks for the modules in
sorted key order. -/
def analyze_aab (statLines : List String) (fs : FS) (aab_path : String) : AnalyzeResult :=
  match fs.lookup aab_path with
  | none => ⟨false, ["✗ AAB file not found: " ++ aab_path]⟩
  | some content =>
    let header :=
      [sep60, "AAB File Information: " ++ pathName aab_path, sep60, "\n📦 File Details:"] ++
        statLines
    match content with
    | FileContent.zip entries =>
      let files := entries.map Prod.fst
      let modules := groupByModule files
      let body :=
        (pySorted (modules.map Prod.fst)).flatMap
          (fun m => moduleLines m (lookupModule modules m))
      ⟨true,
       header ++ ["\n📂 Archive Contents (" ++ toString files.length ++ " files):"] ++
         body ++ ["\n✓ AAB file is valid"]⟩
    | FileContent.bytes _ =>
      ⟨false, header ++ ["✗ AAB file is not a valid ZIP archive"]⟩
    | FileContent.text _ =>
      ⟨false, header ++ ["✗ AAB file is not a valid ZIP archive"]⟩

/-- Model of `analyze_aab.py`'s `main()`, with `args` standing for
`sys.argv[1:]`: no argument prints usage and exits 1; otherwise the exit
status is 0 exactly when `analyze_aab` returns `True`. -/
def analyze_main (statLines : List String) (fs : FS) (args : List String) :
    Nat × List String :=
  match args with
  | [] => (1, ["Usage: python analyze_aab.py <path_to_aab>",
               "\nExample: python analyze_aab.py output/iot-marketplace-app.aab"])
  | aab_file :: _ =>
    let r := analyze_aab statLines fs aab_file
    (if r.ok then 0 else 1, r.output)

/- ================= Helper lemmas ================= -/

/-- Joining a string made from an explicit character list. -/
theorem strMkAppend (s t : String) : String.mk (s.toList ++ t.toList) = s ++ t := by
  apply String.ext
  rw [String.data_append]
  rfl

/-- Replacement of a one-character pattern by a one-character replacement is
a character map. -/
theorem pyReplaceAux_single (a b : Char) :
    ∀ (fuel : Nat) (cs : List Char), cs.length ≤ fuel →
      pyReplaceAux [a] [b] fuel cs = cs.map (fun c => if c = a then b else c) := by
  intro fuel
  induction fuel with
  | zero =>
    intro cs h
    have : cs = [] := List.eq_nil_of_length_eq_zero (Nat.le_zero.mp h)
    subst this
    rfl
  | succ f ih =>
    intro cs h
    match cs with
    | [] => rfl
    | c :: rest =>
      have hlen : rest.length ≤ f := by
        simp only [List.length_cons] at h
        omega
      by_cases hc : c = a
      · subst hc
        simp [pyReplaceAux, listPrefixOf, ih rest hlen]
      · have hbeq : (a == c) = false := by
          simp [beq_eq_false_iff_ne]
          exact fun e => hc e.symm
        simp [pyReplaceAux, listPrefixOf, hbeq, hc, ih rest hlen]

/-- `s.replace(" ", "_")` replaces every space with an underscore. -/
theorem pyReplace_space (s : String) :
    pyReplace s " " "_" = String.mk (s.toList.map (fun c => if c = ' ' then '_' else c)) := by
  unfold pyReplace
  exact congrArg String.mk (pyReplaceAux_single ' ' '_' s.toList.length s.toList (Nat.le_refl _))

/-- The pattern `".aab"` has no self-overlap, so when it is not a prefix of
`c :: cs2` it is also not a prefix of `c :: cs2 ++ ".aab"`. -/
theorem listPrefixOf_aab_append (c : Char) (cs2 : List Char)
    (h : listPrefixOf ['.', 'a', 'a', 'b'] (c :: cs2) = false) :
    listPrefixOf ['.', 'a', 'a', 'b'] ((c :: cs2) ++ ['.', 'a', 'a', 'b']) = false := by
  match cs2 with
  | [] =>
    simp [listPrefixOf, show ('a' == '.') = false from rfl]
  | [d] =>
    simp [listPrefixOf, show ('a' == '.') = false from rfl]
  | [d, e] =>
    simp [listPrefixOf, show ('b' == '.') = false from rfl]
  | d :: e :: g :: rest =>
    simpa [listPrefixOf] using h

/-- Appending `".aab"` to a string not containing `".aab"` and replacing
`".aab"` rewrites exactly the appended suffix. -/
theorem pyReplaceAux_append_aab (rep : List Char) :
    ∀ (cs : List Char) (fuel : Nat), cs.length + 4 ≤ fuel →
      containsSubL ['.', 'a', 'a', 'b'] cs = false →
      pyReplaceAux ['.', 'a', 'a', 'b'] rep fuel (cs ++ ['.', 'a', 'a', 'b']) = cs ++ rep := by
  intro cs
  induction cs with
  | nil =>
    intro fuel hfuel _
    cases fuel with
    | zero => omega
    | succ f => simp [pyReplaceAux, listPrefixOf]
  | cons c cs2 ih =>
    intro fuel hfuel hsub
    have hboth : listPrefixOf ['.', 'a', 'a', 'b'] (c :: cs2) = false ∧
        containsSubL ['.', 'a', 'a', 'b'] cs2 = false := by
      simpa [containsSubL] using hsub
    cases fuel with
    | zero => omega
    | succ f =>
      have hlen : cs2.length + 4 ≤ f := by
        simp only [List.length_cons] at hfuel
        omega
      have hpre := listPrefixOf_aab_append c cs2 hboth.1
      rw [List.cons_append] at hpre ⊢
      simp [pyReplaceAux, hpre, ih f hlen hboth.2]

/-- Splitting a list free of the separator yields one field. -/
theorem pySplitAux_no_sep (sep : Char) :
    ∀ (cs acc : List Char), sep ∉ cs →
      pySplitAux sep cs acc = [acc.reverse ++ cs] := by
  intro cs
  induction cs with
  | nil =>
    intro acc _
    simp [pySplitAux]
  | cons c rest ih =>
    intro acc h
    have hc : ¬ c = sep := by
      rintro rfl
      exact h (List.mem_cons_self _ _)
    rw [pySplitAux, if_neg hc, ih (c :: acc) (fun hm => h (List.mem_cons_of_mem _ hm))]
    simp

/-- An entry name without a slash is its own module key. -/
theorem moduleOf_no_slash (s : String) (h : '/' ∉ s.toList) : moduleOf s = s := by
  unfold moduleOf pySplit
  rw [pySplitAux_no_sep '/' s.toList [] h]
  rfl

/-- `sign_aab` returns `False` whenever `jarsigner` raises or exits
non-zero. -/
theorem sign_aab_ret_none (env : Env) (p : String)
    (h : env.jarsignerRaises = true ∨ env.jarsignerReturncode ≠ 0) :
    (sign_aab env p).ret = none := by
  by_cases hr : env.jarsignerRaises = true
  · simp [sign_aab, hr]
  · have hrc : env.jarsignerReturncode ≠ 0 := h.resolve_left hr
    simp [sign_aab, hr, hrc]

/- ================= Sample environments and filesystems ================= -/

/-- Converter environment in which every external tool succeeds. -/
def envAllOk : Env := ⟨true, 0, "", false, "", 0, "", "", false, ""⟩

/-- Converter environment without a Java runtime. -/
def envNoJava : Env := ⟨false, 0, "", false, "", 0, "", "", false, ""⟩

/-- Converter environment in which `jarsigner` exits non-zero. -/
def envSignFail : Env := ⟨true, 1, "keystore was tampered with", false, "", 0, "", "", false, ""⟩

/-- Converter environment in which the `jarsigner` invocation raises. -/
def envSignRaise : Env := ⟨true, 0, "", true, "timeout expired", 0, "", "", false, ""⟩

/-- Empty filesystem. -/
def fsEmpty : FS := ⟨[]⟩

/-- Filesystem with every converter prerequisite and an input APK whose stem
contains a space. -/
def fsReady : FS :=
  ⟨[(bundletool_jar, FileContent.bytes [80, 75]),
    (keystore_path, FileContent.bytes [1]),
    ("demo app.apk", FileContent.bytes [80, 75, 3, 4])]⟩

/-- Filesystem with the bundletool jar but no keystore. -/
def fsNoKeystore : FS := ⟨[(bundletool_jar, FileContent.bytes [80, 75])]⟩

/-- Filesystem whose only file is not a zip archive. -/
def fsNotZip : FS := ⟨[("bad.aab", FileContent.bytes [1, 2, 3])]⟩

/-- Filesystem with a seven-entry archive inside one module. -/
def fsBigZip : FS :=
  ⟨[("big.aab",
     FileContent.zip
       [("m/a", FileContent.bytes []), ("m/b", FileContent.bytes []),
        ("m/c", FileContent.bytes []), ("m/d", FileContent.bytes []),
        ("m/e", FileContent.bytes []), ("m/f", FileContent.bytes []),
        ("m/g", FileContent.bytes [])])]⟩

/-- Filesystem already holding the bundletool jar at the fetcher's target. -/
def fsWithJar : FS := ⟨[(BUNDLETOOL_JAR, FileContent.bytes [80, 75])]⟩

/-- Fetcher environment whose download succeeds. -/
def dlEnvOk : DlEnv := ⟨true, FileContent.bytes [80, 75], ""⟩

/-- Keytool environment in which every invocation succeeds. -/
def ktEnvOk : KtEnv :=
  ⟨0, "", false, "", FileContent.bytes [7], 0, "keystore listing", "", false, "", 0, "", false, ""⟩

/- ================= C4 ================= -/

/-- C4 counterexample: the claim says the signed-archive name only replaces a
trailing `".aab"` suffix, so that `"x.aab.aab"` maps to `"x.aab-signed.aab"`;
the code's `str.replace` rewrites every occurrence, so it does not. -/
theorem c4_signed_name_counterexample :
    signed_aab_name "x.aab.aab" ≠ "x.aab-signed.aab" := by decide

/-- C4 (amended): the signed-archive name replaces every non-overlapping
occurrence of `".aab"` in the file name with `"-signed.aab"`; for a name
whose only occurrence is the trailing suffix this is the suffix replacement
the spec describes, but `"x.aab.aab"` maps to `"x-signed.aab-signed.aab"`. -/
theorem c4_signed_name_amended :
    (∀ s : String, containsSub ".aab" s = false →
      signed_aab_name (s ++ ".aab") = s ++ "-signed.aab") ∧
    signed_aab_name "x.aab.aab" = "x-signed.aab-signed.aab" := by
  constructor
  · intro s hs
    have hsub : containsSubL ['.', 'a', 'a', 'b'] s.toList = false := hs
    have e1 : (s ++ ".aab").toList = s.toList ++ ['.', 'a', 'a', 'b'] := by
      have h2 := String.data_append s ".aab"
      simp only [String.toList]
      rw [h2]
    unfold signed_aab_name pyReplace
    rw [e1, List.length_append, ← strMkAppend s "-signed.aab"]
    exact congrArg String.mk
      (pyReplaceAux_append_aab ("-signed.aab".toList) s.toList
        (s.toList.length + List.length ['.', 'a', 'a', 'b']) (Nat.le_refl _) hsub)
  · decide

/-- C4 witness: a plain name ending in `".aab"` gets the suffix replaced. -/
theorem c4_signed_name_amended_witness :
    containsSub ".aab" "demo_app" = false ∧
    signed_aab_name ("demo_app" ++ ".aab") = "demo_app" ++ "-signed.aab" :=
  ⟨by decide, c4_signed_name_amended.1 "demo_app" (by decide)⟩

/- ================= C9 ================= -/

/-- C9 counterexample: the claim says every external tool invocation carries
a fixed 30–120 second timeout, but the `keytool -list -v` invocation of
`list_keystore_info` passes no timeout at all. -/
theorem c9_timeouts_counterexample :
    ((list_keystore_info ktEnvOk "certs/iot_marketplace_app.keystore" "iot_app_12345").calls.all
      timeoutOk) = false := by decide

/-- C9 (amended): the keytool generation, jarsigner, and bundletool manifest
dump invocations carry fixed timeouts of 30, 120, and 30 seconds (each within
30–120), and a raised timeout exception is treated as failure; the keytool
list, keytool alias validation, and java version check invocations carry no
timeout. -/
theorem c9_timeouts_amended :
    (∀ env fs p pw al ap d, ∀ tc ∈ (create_keystore env fs p pw al ap d).calls,
      tc.timeoutSecs = some 30 ∧ timeoutOk tc = true) ∧
    (∀ env p, ∀ tc ∈ (sign_aab env p).calls,
      tc.timeoutSecs = some 120 ∧ timeoutOk tc = true) ∧
    (∀ env fs p, ∀ tc ∈ (get_bundle_info env fs p).calls,
      tc.timeoutSecs = some 30 ∧ timeoutOk tc = true) ∧
    (∀ env p pw, ∀ tc ∈ (list_keystore_info env p pw).calls, tc.timeoutSecs = none) ∧
    (∀ env fs p pw al, ∀ tc ∈ (validate_keystore env fs p pw al).calls,
      tc.timeoutSecs = none) ∧
    (∀ env fs, ∀ tc ∈ (check_requirements env fs).calls, tc.timeoutSecs = none) ∧
    (∀ env p, env.jarsignerRaises = true → (sign_aab env p).ret = none) ∧
    (∀ env fs p pw al ap d, fs.hasFile p = false → env.genRaises = true →
      (create_keystore env fs p pw al ap d).ok = false) := by
  refine ⟨?_, ?_, ?_, ?_, ?_, ?_, ?_, ?_⟩
  · intro env fs p pw al ap d tc htc
    unfold create_keystore at htc
    split_ifs at htc <;> simp_all [timeoutOk]
  · intro env p tc htc
    unfold sign_aab at htc
    split_ifs at htc <;> simp_all [timeoutOk]
  · intro env fs p tc htc
    unfold get_bundle_info at htc
    rcases h : fs.lookup p with _ | content <;> rw [h] at htc
    · simp at htc
    · split_ifs at htc <;> simp_all [timeoutOk]
  · intro env p pw tc htc
    unfold list_keystore_info at htc
    split_ifs at htc <;> simp_all
  · intro env fs p pw al tc htc
    unfold validate_keystore at htc
    split_ifs at htc <;> simp_all
  · intro env fs tc htc
    unfold check_requirements at htc
    split_ifs at htc <;> simp_all [javaVersionCall]
  · intro env p h
    exact sign_aab_ret_none env p (Or.inl h)
  · intro env fs p pw al ap d hmiss hr
    simp [create_keystore, hmiss, hr]

/-- C9 witness: concrete invocations exhibit the stated timeouts. -/
theorem c9_timeouts_amended_witness :
    ((⟨keytoolGenArgv keystore_path keystore_pass key_alias key_pass 25550, some 30⟩ :
        ToolCall).timeoutSecs = some 30) ∧
    (∀ tc ∈ (list_keystore_info ktEnvOk keystore_path keystore_pass).calls,
      tc.timeoutSecs = none) ∧
    (sign_aab envSignRaise "output/demo_app.aab").ret = none :=
  ⟨(c9_timeouts_amended.1 ktEnvOk fsEmpty keystore_path keystore_pass key_alias key_pass 25550
      ⟨keytoolGenArgv keystore_path keystore_pass key_alias key_pass 25550, some 30⟩
      (by decide)).1,
   c9_timeouts_amended.2.2.2.1 ktEnvOk keystore_path keystore_pass,
   c9_timeouts_amended.2.2.2.2.2.2.1 envSignRaise "output/demo_app.aab" rfl⟩

/- ================= C10 ================= -/

/-- C10: an archive entry without a slash is grouped under a module named by
the whole entry name; on the converter's own output the analyzer reports the
two modules `base` (holding `base/universal.apk`) and `BundleConfig.pb`
(holding itself). -/
theorem c10_module_grouping :
    (∀ s : String, '/' ∉ s.toList → moduleOf s = s) ∧
    groupByModule ["base/universal.apk", "BundleConfig.pb"] =
      [("base", ["base/universal.apk"]), ("BundleConfig.pb", ["BundleConfig.pb"])] ∧
    ((analyze_aab [] (process_apk envAllOk fsReady "demo app.apk" true).fs
        "output/demo_app.aab").ok = true ∧
     "  ├─ base/" ∈ (analyze_aab [] (process_apk envAllOk fsReady "demo app.apk" true).fs
        "output/demo_app.aab").output ∧
     "  ├─ BundleConfig.pb/" ∈ (analyze_aab [] (process_apk envAllOk fsReady "demo app.apk" true).fs
        "output/demo_app.aab").output) :=
  ⟨fun s h => moduleOf_no_slash s h, by decide, by decide, by decide, by decide⟩

/-- C10 witness: the slash-free entry written by the converter is its own
module key. -/
theorem c10_module_grouping_witness :
    ('/' ∉ "BundleConfig.pb".toList) ∧ moduleOf "BundleConfig.pb" = "BundleConfig.pb" :=
  ⟨by decide, c10_module_grouping.1 "BundleConfig.pb" (by decide)⟩

/- ================= C1 ================= -/

/-- C1: when the requirements hold and the input APK exists, the converter
run succeeds and leaves, in the output directory under the input's base name
with every space replaced by an underscore plus `".aab"`, an archive holding
exactly the two entries `base/universal.apk` (the input APK's content) and a
top-level `BundleConfig.pb` (the placeholder plain-text config). -/
theorem c1_output_archive_name_and_entries (env : Env) (fs : FS) (apk_path : String)
    (c : FileContent)
    (hjava : env.javaOk = true)
    (hbt : fs.hasFile bundletool_jar = true)
    (hks : fs.hasFile keystore_path = true)
    (hapk : fs.lookup apk_path = some c) :
    (process_apk env fs apk_path true).ok = true ∧
    (process_apk env fs apk_path true).fs.lookup
        (pathJoin output_dir
          (String.mk ((pathStem apk_path).toList.map (fun ch => if ch = ' ' then '_' else ch))
            ++ ".aab"))
      = some (FileContent.zip [("base/universal.apk", c),
                               ("BundleConfig.pb", FileContent.text bundleConfigStr)]) := by
  have hname : output_aab_path apk_path =
      pathJoin output_dir
        (String.mk ((pathStem apk_path).toList.map (fun ch => if ch = ' ' then '_' else ch))
          ++ ".aab") := by
    rw [output_aab_path, output_aab_name, pyReplace_space]
  constructor
  · simp [process_apk, check_requirements, hjava, hbt, hks, convert_apk_to_aab, hapk]
  · rw [← hname]
    simp [process_apk, check_requirements, hjava, hbt, hks, convert_apk_to_aab, hapk,
      FS.lookup_write_self]

/-- C1 witness: `demo app.apk` yields `output/demo_app.aab` with exactly the
two entries. -/
theorem c1_output_archive_name_and_entries_witness :
    (process_apk envAllOk fsReady "demo app.apk" true).ok = true ∧
    (process_apk envAllOk fsReady "demo app.apk" true).fs.lookup "output/demo_app.aab"
      = some (FileContent.zip [("base/universal.apk", FileContent.bytes [80, 75, 3, 4]),
                               ("BundleConfig.pb", FileContent.text bundleConfigStr)]) := by
  have h := c1_output_archive_name_and_entries envAllOk fsReady "demo app.apk"
    (FileContent.bytes [80, 75, 3, 4]) rfl rfl rfl rfl
  exact ⟨h.1, h.2⟩

/- ================= C2 ================= -/

/-- C2: the requirement check tests Java, then the bundletool jar, then the
keystore, in that order, and the first failing check yields `False` with that
specific reason logged; with the keystore missing, `process_apk` fails with
exit status 1 and the filesystem is untouched (no archive is built). -/
theorem c2_requirement_check_order :
    (∀ env fs, env.javaOk = false →
      check_requirements env fs =
        ⟨false, ["🔍 Checking requirements...", "✗ Java is NOT installed"],
         [javaVersionCall]⟩) ∧
    (∀ env fs, env.javaOk = true → fs.hasFile bundletool_jar = false →
      check_requirements env fs =
        ⟨false, ["🔍 Checking requirements...", "✓ Java is installed",
                 "✗ Bundletool not found at " ++ bundletool_jar], [javaVersionCall]⟩) ∧
    (∀ env fs, env.javaOk = true → fs.hasFile bundletool_jar = true →
        fs.hasFile keystore_path = false →
      check_requirements env fs =
        ⟨false, ["🔍 Checking requirements...", "✓ Java is installed", "✓ Bundletool found",
                 "✗ Keystore not found at " ++ keystore_path], [javaVersionCall]⟩) ∧
    (∀ env fs, env.javaOk = true → fs.hasFile bundletool_jar = true →
        fs.hasFile keystore_path = true →
      check_requirements env fs =
        ⟨true, ["🔍 Checking requirements...", "✓ Java is installed", "✓ Bundletool found",
                "✓ Keystore found"], [javaVersionCall]⟩) ∧
    (∀ env fs apk_path, fs.hasFile keystore_path = false →
      (process_apk env fs apk_path true).ok = false ∧
      (process_apk env fs apk_path true).fs = fs ∧
      (apk_to_aab_main env fs [apk_path]).1 = 1) := by
  refine ⟨?_, ?_, ?_, ?_, ?_⟩
  · intro env fs h
    simp [check_requirements, h]
  · intro env fs h1 h2
    simp [check_requirements, h1, h2]
  · intro env fs h1 h2 h3
    simp [check_requirements, h1, h2, h3]
  · intro env fs h1 h2 h3
    simp [check_requirements, h1, h2, h3]
  · intro env fs apk_path hks
    have hreq : (check_requirements env fs).ok = false := by
      unfold check_requirements
      split_ifs <;> simp_all
    refine ⟨?_, ?_, ?_⟩
    · simp [process_apk, hreq]
    · simp [process_apk, hreq]
    · simp [apk_to_aab_main, process_apk, hreq]

/-- C2 witness: a missing Java runtime is the reported reason, and a missing
keystore aborts the run with exit status 1 and no write. -/
theorem c2_requirement_check_order_witness :
    check_requirements envNoJava fsEmpty =
      ⟨false, ["🔍 Checking requirements...", "✗ Java is NOT installed"], [javaVersionCall]⟩ ∧
    ((process_apk envAllOk fsNoKeystore "app.apk" true).ok = false ∧
     (process_apk envAllOk fsNoKeystore "app.apk" true).fs = fsNoKeystore ∧
     (apk_to_aab_main envAllOk fsNoKeystore ["app.apk"]).1 = 1) :=
  ⟨c2_requirement_check_order.1 envNoJava fsEmpty rfl,
   c2_requirement_check_order.2.2.2.2 envAllOk fsNoKeystore "app.apk" rfl⟩

/- ================= C3 ================= -/

/-- C3: when bundle construction succeeds but `jarsigner` fails (non-zero
exit or exception), `process_apk` still returns `True` (exit status 0), the
unsigned archive is still at the output path, and the signing-failure warning
is logged instead of aborting. -/
theorem c3_signing_failure_nonfatal (env : Env) (fs : FS) (apk_path : String)
    (c : FileContent)
    (hjava : env.javaOk = true)
    (hbt : fs.hasFile bundletool_jar = true)
    (hks : fs.hasFile keystore_path = true)
    (hapk : fs.lookup apk_path = some c)
    (hsign : env.jarsignerRaises = true ∨ env.jarsignerReturncode ≠ 0) :
    (process_apk env fs apk_path true).ok = true ∧
    (process_apk env fs apk_path true).fs.lookup (output_aab_path apk_path)
      = some (FileContent.zip [("base/universal.apk", c),
                               ("BundleConfig.pb", FileContent.text bundleConfigStr)]) ∧
    "⚠ AAB created but signing failed" ∈ (process_apk env fs apk_path true).logs ∧
    (apk_to_aab_main env fs [apk_path]).1 = 0 := by
  have hret := sign_aab_ret_none env (output_aab_path apk_path) hsign
  have hok : ∀ sgn : Bool, (process_apk env fs apk_path sgn).ok = true := by
    intro sgn
    simp [process_apk, check_requirements, hjava, hbt, hks, convert_apk_to_aab, hapk]
  refine ⟨hok true, ?_, ?_, ?_⟩
  · simp [process_apk, check_requirements, hjava, hbt, hks, convert_apk_to_aab, hapk,
      FS.lookup_write_self]
  · simp [process_apk, check_requirements, hjava, hbt, hks, convert_apk_to_aab, hapk, hret]
  · simp [apk_to_aab_main, hok]

/-- C3 witness: a failing `jarsigner` leaves the unsigned `demo_app.aab` in
place, logs the warning, and the run exits 0. -/
theorem c3_signing_failure_nonfatal_witness :
    (process_apk envSignFail fsReady "demo app.apk" true).ok = true ∧
    (process_apk envSignFail fsReady "demo app.apk" true).fs.lookup "output/demo_app.aab"
      = some (FileContent.zip [("base/universal.apk", FileContent.bytes [80, 75, 3, 4]),
                               ("BundleConfig.pb", FileContent.text bundleConfigStr)]) ∧
    "⚠ AAB created but signing failed" ∈ (process_apk envSignFail fsReady "demo app.apk" true).logs ∧
    (apk_to_aab_main envSignFail fsReady ["demo app.apk"]).1 = 0 := by
  have h := c3_signing_failure_nonfatal envSignFail fsReady "demo app.apk"
    (FileContent.bytes [80, 75, 3, 4]) rfl rfl rfl rfl (Or.inr (by decide))
  exact ⟨h.1, h.2.1, h.2.2.1, h.2.2.2⟩

/- ================= C5 ================= -/

/-- C5: when the bundletool jar is already at the target path the fetcher
issues zero network requests and reports success, and after any successful
call a second call downloads nothing. -/
theorem c5_fetcher_idempotent :
    (∀ env fs, fs.hasFile BUNDLETOOL_JAR = true →
      download_bundletool env fs =
        ⟨true, fs, 0, ["✓ Bundletool already exists at " ++ BUNDLETOOL_JAR]⟩) ∧
    (∀ env env2 fs, (download_bundletool env fs).ok = true →
      (download_bundletool env2 (download_bundletool env fs).fs).requests = 0) := by
  constructor
  · intro env fs h
    simp [download_bundletool, h]
  · intro env env2 fs h
    by_cases h1 : fs.hasFile BUNDLETOOL_JAR = true
    · simp [download_bundletool, h1]
    · have h1f : fs.hasFile BUNDLETOOL_JAR = false := by
        simpa using h1
      by_cases h2 : env.downloadOk = true
      · simp [download_bundletool, h1f, h2, FS.hasFile_write_self]
      · have h2f : env.downloadOk = false := by
          simpa using h2
        simp [download_bundletool, h1f, h2f] at h

/-- C5 witness: with the jar present the fetcher is a no-op, and after a
successful download a second call issues no request. -/
theorem c5_fetcher_idempotent_witness :
    download_bundletool dlEnvOk fsWithJar =
      ⟨true, fsWithJar, 0, ["✓ Bundletool already exists at " ++ BUNDLETOOL_JAR]⟩ ∧
    (download_bundletool dlEnvOk (download_bundletool dlEnvOk fsEmpty).fs).requests = 0 :=
  ⟨c5_fetcher_idempotent.1 dlEnvOk fsWithJar rfl,
   c5_fetcher_idempotent.2 dlEnvOk dlEnvOk fsEmpty rfl⟩

/- ================= C6 ================= -/

/-- C6: with the keystore file already present `create_keystore` succeeds
without invoking `keytool`; starting from a missing file, a successful
creating call invokes `keytool` exactly once, and every later call on the
resulting filesystem succeeds with zero further invocations. -/
theorem c6_create_keystore_idempotent :
    (∀ env fs p pw al ap d, fs.hasFile p = true →
      create_keystore env fs p pw al ap d =
        ⟨true, fs, ["✓ Keystore already exists at " ++ p], []⟩) ∧
    (∀ env fs p pw al ap d, fs.hasFile p = false → env.genRaises = false →
        env.genReturncode = 0 →
      (create_keystore env fs p pw al ap d).ok = true ∧
      (create_keystore env fs p pw al ap d).calls.length = 1 ∧
      ∀ env2 pw2 al2 ap2 d2,
        (create_keystore env2 (create_keystore env fs p pw al ap d).fs p pw2 al2 ap2 d2).ok
            = true ∧
        (create_keystore env2 (create_keystore env fs p pw al ap d).fs p pw2 al2 ap2 d2).calls.length
            = 0) := by
  constructor
  · intro env fs p pw al ap d h
    simp [create_keystore, h]
  · intro env fs p pw al ap d h hr hrc
    refine ⟨?_, ?_, ?_⟩
    · simp [create_keystore, h, hr, hrc]
    · simp [create_keystore, h, hr, hrc]
    · intro env2 pw2 al2 ap2 d2
      constructor <;> simp [create_keystore, h, hr, hrc, FS.hasFile_write_self]

/-- C6 witness: one creating call on an empty filesystem invokes `keytool`
once; the repeated call invokes it zero times. -/
theorem c6_create_keystore_idempotent_witness :
    (create_keystore ktEnvOk fsEmpty keystore_path keystore_pass key_alias key_pass 25550).ok
        = true ∧
    (create_keystore ktEnvOk fsEmpty keystore_path keystore_pass key_alias key_pass
        25550).calls.length = 1 ∧
    (create_keystore ktEnvOk
        (create_keystore ktEnvOk fsEmpty keystore_path keystore_pass key_alias key_pass 25550).fs
        keystore_path keystore_pass key_alias key_pass 25550).calls.length = 0 := by
  have h := c6_create_keystore_idempotent.2 ktEnvOk fsEmpty keystore_path keystore_pass
    key_alias key_pass 25550 rfl rfl rfl
  exact ⟨h.1, h.2.1, (h.2.2 ktEnvOk keystore_pass key_alias key_pass 25550).2⟩

/- ================= C7 ================= -/

/-- C7: the analyzer reports a missing file as a distinct failure before any
zip attempt (the not-found line is its entire output), reports a non-zip file
with the distinct not-a-valid-archive message, and exits with status 1 in
both cases. -/
theorem c7_analyzer_failure_reporting :
    (∀ statLines fs p, fs.lookup p = none →
      analyze_aab statLines fs p = ⟨false, ["✗ AAB file not found: " ++ p]⟩ ∧
      (analyze_main statLines fs [p]).1 = 1) ∧
    (∀ statLines fs p content, fs.lookup p = some content →
      (∀ es, content ≠ FileContent.zip es) →
      ((analyze_aab statLines fs p).ok = false ∧
       "✗ AAB file is not a valid ZIP archive" ∈ (analyze_aab statLines fs p).output ∧
       (analyze_main statLines fs [p]).1 = 1)) ∧
    (∀ p : String, "✗ AAB file is not a valid ZIP archive" ≠ "✗ AAB file not found: " ++ p) := by
  refine ⟨?_, ?_, ?_⟩
  · intro statLines fs p h
    constructor
    · simp [analyze_aab, h]
    · simp [analyze_main, analyze_aab, h]
  · intro statLines fs p content h hne
    cases content with
    | zip es => exact absurd rfl (hne es)
    | bytes d =>
      refine ⟨?_, ?_, ?_⟩ <;> simp [analyze_aab, analyze_main, h]
    | text s =>
      refine ⟨?_, ?_, ?_⟩ <;> simp [analyze_aab, analyze_main, h]
  · intro p h
    have hd := congrArg String.data h
    rw [String.data_append] at hd
    have ht := congrArg (List.take ("✗ AAB file not found: ").data.length) hd
    rw [List.take_left] at ht
    exact absurd ht (by decide)

/-- C7 witness: a missing file and a non-zip file are each reported with
their distinct message and exit status 1. -/
theorem c7_analyzer_failure_reporting_witness :
    (analyze_aab [] fsEmpty "missing.aab" =
      ⟨false, ["✗ AAB file not found: " ++ "missing.aab"]⟩ ∧
     (analyze_main [] fsEmpty ["missing.aab"]).1 = 1) ∧
    ((analyze_aab [] fsNotZip "bad.aab").ok = false ∧
     "✗ AAB file is not a valid ZIP archive" ∈ (analyze_aab [] fsNotZip "bad.aab").output ∧
     (analyze_main [] fsNotZip ["bad.aab"]).1 = 1) ∧
    "✗ AAB file is not a valid ZIP archive" ≠ "✗ AAB file not found: " ++ "bad.aab" :=
  ⟨c7_analyzer_failure_reporting.1 [] fsEmpty "missing.aab" rfl,
   c7_analyzer_failure_reporting.2.1 [] fsNotZip "bad.aab" (FileContent.bytes [1, 2, 3]) rfl
     (fun _ h => FileContent.noConfusion h),
   c7_analyzer_failure_reporting.2.2 "bad.aab"⟩

/- ================= C8 ================= -/

/-- C8: for a valid zip the analyzer's reported file count equals the number
of central-directory entries, and each module block prints at most 5 example
entries drawn from that module (exactly 5 when the module has more), plus a
truncation line counting the remaining entries exactly when more than 5
exist. -/
theorem c8_analyzer_counts :
    (∀ statLines fs p entries, fs.lookup p = some (FileContent.zip entries) →
      (analyze_aab statLines fs p).ok = true ∧
      ("\n📂 Archive Contents (" ++ toString entries.length ++ " files):") ∈
        (analyze_aab statLines fs p).output) ∧
    (∀ (m : String) (fl : List String), ∃ ex : List String,
      moduleLines m fl =
        ("  ├─ " ++ m ++ "/") :: ex.map (fun file => "  │  ├─ " ++ file) ++
          (if fl.length > 5 then
            ["  │  └─ ... and " ++ toString (fl.length - 5) ++ " more"]
           else []) ∧
      ex.length ≤ 5 ∧ (fl.length > 5 → ex.length = 5) ∧ ∀ f ∈ ex, f ∈ fl) := by
  constructor
  · intro statLines fs p entries h
    constructor
    · simp [analyze_aab, h]
    · simp [analyze_aab, h, List.length_map]
  · intro m fl
    refine ⟨(pySorted fl).take 5, rfl, ?_, ?_, ?_⟩
    · rw [List.length_take, length_pySorted]
      exact Nat.min_le_left _ _
    · intro h5
      rw [List.length_take, length_pySorted]
      omega
    · intro f hf
      exact (mem_pySorted f fl).mp (List.take_subset _ _ hf)

/-- C8 witness: a seven-entry archive is reported with count 7, and its
module block shows exactly 5 examples plus a truncation line for the 2
remaining entries. -/
theorem c8_analyzer_counts_witness :
    ((analyze_aab [] fsBigZip "big.aab").ok = true ∧
     ("\n📂 Archive Contents (" ++ toString (7 : Nat) ++ " files):") ∈
       (analyze_aab [] fsBigZip "big.aab").output) ∧
    (∃ ex : List String,
      moduleLines "m" ["m/a", "m/b", "m/c", "m/d", "m/e", "m/f", "m/g"] =
        ("  ├─ " ++ "m" ++ "/") :: ex.map (fun file => "  │  ├─ " ++ file) ++
          (if (["m/a", "m/b", "m/c", "m/d", "m/e", "m/f", "m/g"] : List String).length > 5 then
            ["  │  └─ ... and " ++
              toString ((["m/a", "m/b", "m/c", "m/d", "m/e", "m/f", "m/g"] :
                List String).length - 5) ++ " more"]
           else []) ∧
      ex.length ≤ 5 ∧
      ((["m/a", "m/b", "m/c", "m/d", "m/e", "m/f", "m/g"] : List String).length > 5 →
        ex.length = 5) ∧
      ∀ f ∈ ex, f ∈ (["m/a", "m/b", "m/c", "m/d", "m/e", "m/f", "m/g"] : List String)) :=
  ⟨c8_analyzer_counts.1 [] fsBigZip "big.aab"
     [("m/a", FileContent.bytes []), ("m/b", FileContent.bytes []),
      ("m/c", FileContent.bytes []), ("m/d", FileContent.bytes []),
      ("m/e", FileContent.bytes []), ("m/f", FileContent.bytes []),
      ("m/g", FileContent.bytes [])] rfl,
   c8_analyzer_counts.2 "m" ["m/a", "m/b", "m/c", "m/d", "m/e", "m/f", "m/g"]⟩
